import Mathlib

/-
Verification of the two code fragments of this repository:

* the skeleton-of-thought orchestrator of
  docs/tutorials/prompt_engineering/chaining_based/skeleton_of_thought.ipynb
  (functions break_into_subpoints, expand_subpoint, skeleton_of_thought);

* the code-snippet evaluators of
  docs/cookbook/evals/evaluating_documentation_agent.md
  (functions check_syntax, is_importable, check_module, check_attribute).

The external LLM capability, the asyncio event loop, and the Python
module-import machinery are abstracted as explicit parameters; the rest
is translated line by line from the source.
-/

namespace SkeletonOfThought

/-- Errors of the abstract text generation capability: either the
underlying call failed (network, quota, ...) or its output could not be
parsed into the structured response model. In the Python source these
are ordinary exceptions raised by the decorated call. -/
inductive GenErr where
  | generation (msg : String)
  | parse (msg : String)
deriving Repr, DecidableEq

/-- Mirrors `class Skeleton(BaseModel): subpoints: list[str]` from the
notebook. -/
structure Skeleton where
  subpoints : List String
deriving Repr, DecidableEq

/-- Mirrors the call response object of which the orchestrator reads
`result.content`. -/
structure Response where
  content : String
deriving Repr, DecidableEq

/-- One request sent to the external text generation capability. The
notebook builds exactly two kinds of prompts, via `@prompt_template` on
`break_into_subpoints` (dynamic part: `{query}`) and on `expand_subpoint`
(dynamic parts: `{query}`, `{skeleton}`, `{point_index}`); the static
template text is omitted and the dynamic arguments are carried verbatim. -/
inductive Prompt where
  | outline (query : String)
  | expand (query : String) (skeleton : List String) (point_index : Nat)
deriving Repr, DecidableEq

/-- True for a prompt issued by a Subpoint Expander invocation. -/
def Prompt.isExpand : Prompt → Bool
  | Prompt.expand _ _ _ => true
  | _ => false

/-- True for the prompt issued by the Outline Generator. -/
def Prompt.isOutline : Prompt → Bool
  | Prompt.outline _ => true
  | _ => false

/-- Mirrors `break_into_subpoints(query)`: one call to the capability
with the outline prompt, whose raw output is coerced into the `Skeleton`
response model (the `response_model=Skeleton` parse step). `cap` is the
abstract text generation capability, `parse` the abstract structured
output coercion. -/
def break_into_subpoints (cap : Prompt → Except GenErr String)
    (parse : String → Except GenErr Skeleton) (query : String) :
    Except GenErr Skeleton :=
  (cap (Prompt.outline query)).bind parse

/-- Mirrors `expand_subpoint(query, skeleton, point_index)`: one call to
the capability with the expansion prompt; the raw text becomes the
response content. -/
def expand_subpoint (cap : Prompt → Except GenErr String)
    (query : String) (skeleton : List String) (point_index : Nat) :
    Except GenErr Response :=
  (cap (Prompt.expand query skeleton point_index)).map Response.mk

/-- The exception task `i` raised, if any. -/
def task_exc (tasks : List (Except GenErr Response)) (i : Nat) :
    Option GenErr :=
  match tasks[i]? with
  | some (Except.error e) => some e
  | _ => none

/-- Mirrors `await asyncio.gather(*tasks)` with the default
`return_exceptions=False`. `sched` is the completion order of the event
loop (a permutation of the task indices): if some task raised, the first
exception in completion order propagates; otherwise the task results are
returned in task order, not completion order. -/
def asyncio_gather (tasks : List (Except GenErr Response))
    (sched : List Nat) : Except GenErr (List Response) :=
  match sched.findSome? (task_exc tasks) with
  | some e => Except.error e
  | none => tasks.mapM id

/-- Mirrors `skeleton_of_thought(query)`. The first component is the
returned string (or the propagated exception); the second component is
the trace of capability calls issued: the single outline call of
`break_into_subpoints(query)`, then, only when it succeeded, one
expansion call per subpoint built exactly as the Python list
comprehension `[expand_subpoint(query, skeleton.subpoints, i + 1) for i,
subpoint in enumerate(skeleton.subpoints)]` builds its tasks. -/
def skeleton_of_thought (cap : Prompt → Except GenErr String)
    (parse : String → Except GenErr Skeleton)
    (sched : List Nat) (query : String) :
    Except GenErr String × List Prompt :=
  match break_into_subpoints cap parse query with
  | Except.error e => (Except.error e, [Prompt.outline query])
  | Except.ok skeleton =>
    let calls := (List.range skeleton.subpoints.length).map
      (fun i => Prompt.expand query skeleton.subpoints (i + 1))
    let tasks := (List.range skeleton.subpoints.length).map
      (fun i => expand_subpoint cap query skeleton.subpoints (i + 1))
    match asyncio_gather tasks sched with
    | Except.error e => (Except.error e, Prompt.outline query :: calls)
    | Except.ok results =>
      (Except.ok (String.intercalate "\n" (results.map Response.content)),
       Prompt.outline query :: calls)

/-- Capability stub of the testable-properties section: the expansion of
point `i` is the text `Point i expanded.`. -/
def mockCap : Prompt → Except GenErr String
  | Prompt.outline _ =>
    Except.ok "1. Identify distractions 2. Practice mindfulness"
  | Prompt.expand _ _ i =>
    Except.ok ("Point " ++ toString i ++ " expanded.")

/-- Structured-output stub returning the fixed two-label outline of the
testable-properties section. -/
def mockParse : String → Except GenErr Skeleton
  | _ => Except.ok (Skeleton.mk ["Identify distractions", "Practice mindfulness"])

/-- Capability stub whose every call fails. -/
def failCap : Prompt → Except GenErr String
  | _ => Except.error (GenErr.generation "outline unavailable")

/-- Capability stub where the outline call succeeds and every expansion
call for point `i` fails with its own error. -/
def bothFailCap : Prompt → Except GenErr String
  | Prompt.outline _ => Except.ok "raw outline"
  | Prompt.expand _ _ i =>
    Except.error (GenErr.generation ("expansion " ++ toString i ++ " failed"))

/-- Capability stub where only the expansion of point 1 fails. -/
def oneFailCap : Prompt → Except GenErr String
  | Prompt.outline _ => Except.ok "raw outline"
  | Prompt.expand _ _ 1 =>
    Except.error (GenErr.generation "expansion 1 failed")
  | Prompt.expand _ _ i => Except.ok ("Point " ++ toString i ++ " expanded.")

/-- Capability stub whose every call succeeds. -/
def okCap : Prompt → Except GenErr String
  | Prompt.outline _ => Except.ok "raw outline"
  | Prompt.expand _ _ i => Except.ok ("Point " ++ toString i ++ " expanded.")

/-- Structured-output stub returning an outline of eleven labels, one
more than the length bound the specification claims. -/
def elevenParse : String → Except GenErr Skeleton
  | _ => Except.ok (Skeleton.mk
      ["p1", "p2", "p3", "p4", "p5", "p6", "p7", "p8", "p9", "p10", "p11"])

/-- Structured-output stub returning an outline with no entries. -/
def emptyParse : String → Except GenErr Skeleton
  | _ => Except.ok (Skeleton.mk [])

end SkeletonOfThought

namespace DocAgentEval

/-- Exceptions of the Python import machinery that the cookbook code
handles: `check_module` catches `(ImportError, AttributeError,
ValueError)` while `check_attribute` catches only `(ImportError,
AttributeError)`. -/
inductive PyExc where
  | importError
  | attributeError
  | valueError
deriving Repr, DecidableEq

/-- Abstract Python import machinery. `find_spec m` models
`importlib.util.find_spec(m)`: `none` means no spec was found, an error
models a raised exception. `load_hasattr m a` models building the module
from its spec, executing it, and testing `hasattr(module, a)`. -/
structure PyEnv where
  find_spec : String → Except PyExc (Option Unit)
  load_hasattr : String → String → Except PyExc Bool

/-- Mirrors `check_module(module_name)`: `find_spec` succeeding with a
spec gives True, succeeding with `None` gives False, and every caught
exception (`ImportError`, `AttributeError`, `ValueError` — all the
modelled exceptions) gives False. -/
def check_module (env : PyEnv) (module_name : String) : Bool :=
  match env.find_spec module_name with
  | Except.ok spec => spec.isSome
  | Except.error _ => false

/-- Mirrors `check_attribute(module_name, attribute)`: its `try` block
re-runs `find_spec`, loads and executes the module, then tests the
attribute; only `ImportError` and `AttributeError` are caught (giving
False), so a `ValueError` propagates out of the function. -/
def check_attribute (env : PyEnv) (module_name attr : String) :
    Except PyExc Bool :=
  match env.find_spec module_name with
  | Except.error PyExc.valueError => Except.error PyExc.valueError
  | Except.error _ => Except.ok false
  | Except.ok none => Except.ok false
  | Except.ok (some _) =>
    match env.load_hasattr module_name attr with
    | Except.error PyExc.valueError => Except.error PyExc.valueError
    | Except.error _ => Except.ok false
    | Except.ok b => Except.ok b

/-- Import-relevant nodes of the walked AST, in the order `ast.walk`
yields them. An `ast.Import` node carries a nonempty alias list (the
grammar guarantees at least one name), encoded as its first name and the
remaining names; of it the source reads only `node.names[0].name`. An
`ast.ImportFrom` node carries `node.module` and the imported names. All
other node kinds are `other`. -/
inductive PyNode where
  | importPlain (first : String) (rest : List String)
  | importFrom (module : String) (names : List String)
  | other
deriving Repr, DecidableEq

/-- Mirrors the inner loop of `is_importable` over an `ast.ImportFrom`
node: `for alias in node.names: if not check_attribute(module_name,
alias.name): return False`. Returns False on the first failing
attribute, True when all pass; a propagated exception of
`check_attribute` propagates further. -/
def check_aliases (env : PyEnv) (module_name : String) :
    List String → Except PyExc Bool
  | [] => Except.ok true
  | a :: rest =>
    match check_attribute env module_name a with
    | Except.error e => Except.error e
    | Except.ok false => Except.ok false
    | Except.ok true => check_aliases env module_name rest

/-- Mirrors the `for node in ast.walk(tree)` loop of `is_importable`:
for an import node, `module_name` is `node.module` for `ImportFrom` and
`node.names[0].name` for a plain `Import`; `check_module` failing
returns False at once; for `ImportFrom` every listed alias must also
pass `check_attribute`. -/
def walk_imports (env : PyEnv) : List PyNode → Except PyExc Bool
  | [] => Except.ok true
  | PyNode.other :: rest => walk_imports env rest
  | PyNode.importPlain first _ :: rest =>
    if check_module env first then walk_imports env rest
    else Except.ok false
  | PyNode.importFrom module names :: rest =>
    if check_module env module then
      match check_aliases env module names with
      | Except.error e => Except.error e
      | Except.ok false => Except.ok false
      | Except.ok true => walk_imports env rest
    else Except.ok false

/-- Mirrors `is_importable(code_string)`. `pyParse` abstracts
`ast.parse`, returning the walked import-relevant nodes, with `none`
standing for a raised `SyntaxError`; that exception is caught and gives
False. On a parsed tree the import walk decides the result. -/
def is_importable (env : PyEnv) (pyParse : String → Option (List PyNode))
    (code_string : String) : Except PyExc Bool :=
  match pyParse code_string with
  | none => Except.ok false
  | some tree => walk_imports env tree

/-- Mirrors `check_syntax(code_string)`: `compile(code_string,
"<string>", "exec")` succeeds exactly when the string parses (the same
grammar `ast.parse` uses, abstracted by the same `pyParse` oracle), so a
`SyntaxError` is caught and gives False and anything else gives True. -/
def check_syntax (pyParse : String → Option (List PyNode))
    (code_string : String) : Bool :=
  match pyParse code_string with
  | some _ => true
  | none => false

/-- Parse stub knowing two code strings; everything else is a
`SyntaxError`. -/
def toyParse : String → Option (List PyNode)
  | "import math" => some [PyNode.importPlain "math" []]
  | "import math, nonexistent" => some [PyNode.importPlain "math" ["nonexistent"]]
  | _ => none

/-- Import-machinery stub where exactly the module `math` resolves. -/
def toyEnv : PyEnv where
  find_spec := fun m =>
    if m = "math" then Except.ok (some ()) else Except.ok none
  load_hasattr := fun _ _ => Except.ok false

end DocAgentEval

namespace SkeletonOfThought

/-- A list of already-succeeded tasks sequenced through the `Except`
monad yields the list of their payloads. -/
theorem mapM_id_ok (l : List Nat) (f : Nat → Response) :
    (l.map (fun i => Except.ok (f i))).mapM
      (id : Except GenErr Response → Except GenErr Response) =
      Except.ok (l.map f) := by
  induction l with
  | nil => rfl
  | cons a t ih =>
    simp only [List.map_cons, List.mapM_cons, ih]
    rfl

/-- A task list in which every task has succeeded raises no exception. -/
theorem task_exc_all_ok (l : List Nat) (f : Nat → Response) (i : Nat) :
    task_exc (l.map (fun i => Except.ok (f i))) i = none := by
  unfold task_exc
  rw [List.getElem?_map]
  cases l[i]? <;> rfl

/-- When every task has succeeded, `asyncio_gather` returns the payloads
in task order, for every completion order. -/
theorem gather_all_ok (l : List Nat) (f : Nat → Response) (sched : List Nat) :
    asyncio_gather (l.map (fun i => Except.ok (f i))) sched =
      Except.ok (l.map f) := by
  unfold asyncio_gather
  rw [List.findSome?_eq_none_iff.mpr (fun x _ => task_exc_all_ok l f x)]
  exact mapM_id_ok l f

/-- When the outline call succeeds, the capability-call trace of the
orchestrator is the outline call followed by one expansion call per
subpoint, whatever the expansions and the completion order do. -/
theorem sot_trace_of_ok (cap : Prompt → Except GenErr String)
    (parse : String → Except GenErr Skeleton) (query : String) (sk : Skeleton)
    (hgen : break_into_subpoints cap parse query = Except.ok sk)
    (sched : List Nat) :
    (skeleton_of_thought cap parse sched query).2 =
      Prompt.outline query :: (List.range sk.subpoints.length).map
        (fun i => Prompt.expand query sk.subpoints (i + 1)) := by
  unfold skeleton_of_thought
  rw [hgen]
  dsimp only
  split <;> rfl

/-- C1: for every query, every outline the Outline Generator returns and
every family of successful expansions, the Assembled Result is the
expansions joined in outline order (`e 0` for point 1 first, through the
last point), for every completion order `sched` of the expansion tasks. -/
theorem C1_assembled_in_outline_order (cap : Prompt → Except GenErr String)
    (parse : String → Except GenErr Skeleton) (query : String) (sk : Skeleton)
    (e : Nat → String)
    (hgen : break_into_subpoints cap parse query = Except.ok sk)
    (hexp : ∀ i, cap (Prompt.expand query sk.subpoints (i + 1)) =
      Except.ok (e i))
    (sched : List Nat) :
    (skeleton_of_thought cap parse sched query).1 =
      Except.ok (String.intercalate "\n"
        ((List.range sk.subpoints.length).map e)) := by
  have htasks : (List.range sk.subpoints.length).map
      (fun i => expand_subpoint cap query sk.subpoints (i + 1)) =
      (List.range sk.subpoints.length).map
        (fun i => Except.ok (Response.mk (e i))) := by
    apply List.map_congr_left
    intro i _
    rw [expand_subpoint, hexp i]
    rfl
  unfold skeleton_of_thought
  rw [hgen]
  simp only [htasks, gather_all_ok]
  simp [List.map_map, Function.comp_def]

/-- Witness for C1 at the mock generator and expander of the notebook
scenario, with the expansions completing in reverse order. -/
theorem C1_witness :
    (skeleton_of_thought mockCap mockParse [1, 0]
        "How can I improve my focus?").1 =
      Except.ok (String.intercalate "\n"
        ((List.range (Skeleton.mk
            ["Identify distractions", "Practice mindfulness"]).subpoints.length).map
          (fun i => "Point " ++ toString (i + 1) ++ " expanded."))) :=
  C1_assembled_in_outline_order mockCap mockParse "How can I improve my focus?"
    (Skeleton.mk ["Identify distractions", "Practice mindfulness"])
    (fun i => "Point " ++ toString (i + 1) ++ " expanded.")
    rfl (fun _ => rfl) [1, 0]

/-- C2: for every outline the Outline Generator returns, the
orchestrator issues exactly one Subpoint Expander invocation per
1-based index `i + 1` for `i` ranging over the outline positions, each
receiving the query, the full outline and its own index — and nothing
else besides the single outline call. -/
theorem C2_one_invocation_per_index (cap : Prompt → Except GenErr String)
    (parse : String → Except GenErr Skeleton) (query : String) (sk : Skeleton)
    (hgen : break_into_subpoints cap parse query = Except.ok sk)
    (sched : List Nat) :
    (skeleton_of_thought cap parse sched query).2 =
      Prompt.outline query :: (List.range sk.subpoints.length).map
        (fun i => Prompt.expand query sk.subpoints (i + 1)) :=
  sot_trace_of_ok cap parse query sk hgen sched

/-- Witness for C2 at the mock generator of the notebook scenario. -/
theorem C2_witness :
    (skeleton_of_thought mockCap mockParse [0, 1] "q").2 =
      Prompt.outline "q" :: (List.range (Skeleton.mk
          ["Identify distractions", "Practice mindfulness"]).subpoints.length).map
        (fun i => Prompt.expand "q"
          ["Identify distractions", "Practice mindfulness"] (i + 1)) :=
  C2_one_invocation_per_index mockCap mockParse "q"
    (Skeleton.mk ["Identify distractions", "Practice mindfulness"]) rfl [0, 1]

/-- C3: with the mock Outline Generator returning the two labels and the
mock Subpoint Expander returning `Point i expanded.`, the orchestrator
returns exactly the two expansions joined by one newline — under both
possible completion orders of the two expansion tasks. -/
theorem C3_mock_scenario :
    (skeleton_of_thought mockCap mockParse [0, 1]
        "How can I improve my focus?").1 =
      Except.ok "Point 1 expanded.\nPoint 2 expanded." ∧
    (skeleton_of_thought mockCap mockParse [1, 0]
        "How can I improve my focus?").1 =
      Except.ok "Point 1 expanded.\nPoint 2 expanded." := by
  constructor <;> rfl

/-- C4: if the Outline Generator fails, the orchestrator fails with
exactly that outline error and its capability-call trace is the single
outline call: no Subpoint Expander invocation is ever issued. -/
theorem C4_outline_failure_short_circuits (cap : Prompt → Except GenErr String)
    (parse : String → Except GenErr Skeleton) (query : String) (e : GenErr)
    (hgen : break_into_subpoints cap parse query = Except.error e)
    (sched : List Nat) :
    skeleton_of_thought cap parse sched query =
      (Except.error e, [Prompt.outline query]) := by
  unfold skeleton_of_thought
  rw [hgen]

/-- Witness for C4 at a capability stub whose outline call fails. -/
theorem C4_witness :
    skeleton_of_thought failCap mockParse [] "q" =
      (Except.error (GenErr.generation "outline unavailable"),
       [Prompt.outline "q"]) :=
  C4_outline_failure_short_circuits failCap mockParse "q"
    (GenErr.generation "outline unavailable") rfl []

/-- C5 counterexample: with both of the two expansions failing — errors
`expansion 1 failed` and `expansion 2 failed` — the orchestrator
surfaces exactly one expansion error, and which one depends on the
completion order; moreover the run is indistinguishable from a run in
which only the first expansion failed, so the surfaced error cannot
aggregate all the failures. -/
theorem C5_counterexample :
    (skeleton_of_thought bothFailCap mockParse [0, 1] "q").1 =
      Except.error (GenErr.generation "expansion 1 failed") ∧
    (skeleton_of_thought bothFailCap mockParse [1, 0] "q").1 =
      Except.error (GenErr.generation "expansion 2 failed") ∧
    (skeleton_of_thought bothFailCap mockParse [0, 1] "q").1 =
      (skeleton_of_thought oneFailCap mockParse [0, 1] "q").1 :=
  ⟨rfl, rfl, rfl⟩

/-- If a task of the expansion fan-out raised, the index is within the
outline and the capability call at that index failed with that error. -/
theorem task_exc_expand_some (cap : Prompt → Except GenErr String)
    (query : String) (sp : List String) (n a : Nat) (v : GenErr)
    (h : task_exc ((List.range n).map
        (fun i => expand_subpoint cap query sp (i + 1))) a = some v) :
    a < n ∧ cap (Prompt.expand query sp (a + 1)) = Except.error v := by
  unfold task_exc at h
  rw [List.getElem?_map] at h
  by_cases han : a < n
  · rw [List.getElem?_range han] at h
    simp only [Option.map_some'] at h
    unfold expand_subpoint at h
    refine ⟨han, ?_⟩
    cases hcap : cap (Prompt.expand query sp (a + 1)) with
    | ok s =>
      rw [hcap] at h
      simp [Except.map] at h
    | error e0 =>
      rw [hcap] at h
      simp [Except.map] at h
      rw [h]
  · rw [List.getElem?_eq_none (by simpa using Nat.le_of_not_lt han)] at h
    simp at h

/-- When the completion order found an exception, `asyncio_gather`
propagates exactly that exception. -/
theorem gather_error_of_findSome (tasks : List (Except GenErr Response))
    (sched : List Nat) (v : GenErr)
    (hv : sched.findSome? (task_exc tasks) = some v) :
    asyncio_gather tasks sched = Except.error v := by
  unfold asyncio_gather
  rw [hv]

/-- When the outline succeeded and the gathered expansions raised, the
orchestrator returns exactly that exception. -/
theorem sot_result_of_gather_error (cap : Prompt → Except GenErr String)
    (parse : String → Except GenErr Skeleton) (query : String) (sk : Skeleton)
    (hgen : break_into_subpoints cap parse query = Except.ok sk)
    (sched : List Nat) (v : GenErr)
    (hg : asyncio_gather ((List.range sk.subpoints.length).map
        (fun i => expand_subpoint cap query sk.subpoints (i + 1))) sched =
      Except.error v) :
    (skeleton_of_thought cap parse sched query).1 = Except.error v := by
  unfold skeleton_of_thought
  rw [hgen]
  dsimp only
  rw [hg]

/-- C5 amended: when the outline succeeds and at least one expansion
fails, under any completion order that runs every expansion task the
orchestrator fails as a whole — no partial result — and the surfaced
error is the error of one single failed expansion (the first to
complete), not an aggregate of all expansion failures. -/
theorem C5_amended_single_failure_surfaced
    (cap : Prompt → Except GenErr String)
    (parse : String → Except GenErr Skeleton) (query : String) (sk : Skeleton)
    (hgen : break_into_subpoints cap parse query = Except.ok sk)
    (sched : List Nat) (hsched : ∀ j, j < sk.subpoints.length → j ∈ sched)
    (i : Nat) (hi : i < sk.subpoints.length) (err : GenErr)
    (hfail : cap (Prompt.expand query sk.subpoints (i + 1)) =
      Except.error err) :
    ∃ j, j < sk.subpoints.length ∧ ∃ e2 : GenErr,
      cap (Prompt.expand query sk.subpoints (j + 1)) = Except.error e2 ∧
      (skeleton_of_thought cap parse sched query).1 = Except.error e2 := by
  have hexci : task_exc ((List.range sk.subpoints.length).map
      (fun k => expand_subpoint cap query sk.subpoints (k + 1))) i =
      some err := by
    unfold task_exc
    rw [List.getElem?_map, List.getElem?_range hi]
    simp only [Option.map_some']
    unfold expand_subpoint
    rw [hfail]
    rfl
  cases hf : sched.findSome? (task_exc ((List.range sk.subpoints.length).map
      (fun k => expand_subpoint cap query sk.subpoints (k + 1)))) with
  | none =>
    rw [List.findSome?_eq_none_iff] at hf
    exact absurd hexci (by simp [hf i (hsched i hi)])
  | some v =>
    obtain ⟨a, _, hea⟩ := List.exists_of_findSome?_eq_some hf
    obtain ⟨haN, hcap⟩ := task_exc_expand_some cap query sk.subpoints
      sk.subpoints.length a v hea
    exact ⟨a, haN, v, hcap,
      sot_result_of_gather_error cap parse query sk hgen sched v
        (gather_error_of_findSome _ sched v hf)⟩

/-- Witness for C5 as amended: both expansions of the two-label outline
fail and the orchestrator surfaces the single error of one of them. -/
theorem C5_amended_witness :
    ∃ j, j < (Skeleton.mk
        ["Identify distractions", "Practice mindfulness"]).subpoints.length ∧
      ∃ e2 : GenErr,
        bothFailCap (Prompt.expand "q"
          ["Identify distractions", "Practice mindfulness"] (j + 1)) =
          Except.error e2 ∧
        (skeleton_of_thought bothFailCap mockParse [0, 1] "q").1 =
          Except.error e2 :=
  C5_amended_single_failure_surfaced bothFailCap mockParse "q"
    (Skeleton.mk ["Identify distractions", "Practice mindfulness"]) rfl
    [0, 1] (by decide) 0 (by decide)
    (GenErr.generation "expansion 1 failed") rfl

/-- C6 counterexample: the Outline Generator happily returns an outline
of eleven entries — above the claimed bound of ten — and the
orchestrator operates on it, issuing eleven Subpoint Expander
invocations and assembling a result: no length invariant is enforced
anywhere. -/
theorem C6_counterexample :
    (break_into_subpoints okCap elevenParse "q").map
        (fun sk => sk.subpoints.length) = Except.ok 11 ∧
    List.countP Prompt.isExpand
      (skeleton_of_thought okCap elevenParse
        [0, 1, 2, 3, 4, 5, 6, 7, 8, 9, 10] "q").2 = 11 ∧
    (skeleton_of_thought okCap elevenParse
        [0, 1, 2, 3, 4, 5, 6, 7, 8, 9, 10] "q").1.isOk = true :=
  ⟨rfl, by decide, by decide⟩

/-- C6 amended: the three-to-ten length bound appears only in the prompt
text; the code enforces no outline-length invariant. Even an outline
that is empty or longer than ten entries is operated on: the
orchestrator fans out exactly one Subpoint Expander invocation per
entry. -/
theorem C6_amended_no_length_enforcement (cap : Prompt → Except GenErr String)
    (parse : String → Except GenErr Skeleton) (query : String) (sk : Skeleton)
    (hgen : break_into_subpoints cap parse query = Except.ok sk)
    (_hout : 10 < sk.subpoints.length ∨ sk.subpoints.length = 0)
    (sched : List Nat) :
    List.countP Prompt.isExpand
      (skeleton_of_thought cap parse sched query).2 =
      sk.subpoints.length := by
  rw [sot_trace_of_ok cap parse query sk hgen sched]
  simp [List.countP_cons, List.countP_map, Prompt.isExpand, Prompt.isOutline,
    Function.comp_def, List.countP_true]

/-- Witness for C6 as amended at the eleven-label outline stub. -/
theorem C6_amended_witness :
    List.countP Prompt.isExpand
      (skeleton_of_thought okCap elevenParse [] "q").2 =
      (Skeleton.mk ["p1", "p2", "p3", "p4", "p5", "p6", "p7", "p8", "p9",
        "p10", "p11"]).subpoints.length :=
  C6_amended_no_length_enforcement okCap elevenParse "q"
    (Skeleton.mk ["p1", "p2", "p3", "p4", "p5", "p6", "p7", "p8", "p9",
      "p10", "p11"]) rfl (Or.inl (by decide)) []

/-- C7: for every outline the Outline Generator returns, one
orchestration performs exactly one plus the outline length capability
calls: exactly one outline call and exactly one expansion call per
outline entry. -/
theorem C7_one_plus_n_capability_calls (cap : Prompt → Except GenErr String)
    (parse : String → Except GenErr Skeleton) (query : String) (sk : Skeleton)
    (hgen : break_into_subpoints cap parse query = Except.ok sk)
    (sched : List Nat) :
    ((skeleton_of_thought cap parse sched query).2).length =
      1 + sk.subpoints.length ∧
    List.countP Prompt.isOutline
      (skeleton_of_thought cap parse sched query).2 = 1 ∧
    List.countP Prompt.isExpand
      (skeleton_of_thought cap parse sched query).2 =
      sk.subpoints.length := by
  rw [sot_trace_of_ok cap parse query sk hgen sched]
  refine ⟨?_, ?_, ?_⟩
  · simp [Nat.add_comm]
  · simp [List.countP_cons, List.countP_map, Prompt.isOutline,
      Function.comp_def, List.countP_false]
  · simp [List.countP_cons, List.countP_map, Prompt.isExpand,
      Function.comp_def, List.countP_true]

/-- Witness for C7 at the mock generator of the notebook scenario. -/
theorem C7_witness :
    ((skeleton_of_thought mockCap mockParse [0, 1] "q").2).length =
      1 + (Skeleton.mk
        ["Identify distractions", "Practice mindfulness"]).subpoints.length ∧
    List.countP Prompt.isOutline
      (skeleton_of_thought mockCap mockParse [0, 1] "q").2 = 1 ∧
    List.countP Prompt.isExpand
      (skeleton_of_thought mockCap mockParse [0, 1] "q").2 =
      (Skeleton.mk
        ["Identify distractions", "Practice mindfulness"]).subpoints.length :=
  C7_one_plus_n_capability_calls mockCap mockParse "q"
    (Skeleton.mk ["Identify distractions", "Practice mindfulness"]) rfl [0, 1]

/-- No task of the empty task list raised. -/
theorem task_exc_nil (i : Nat) : task_exc [] i = none := by
  unfold task_exc
  rw [List.getElem?_nil]

/-- Gathering no tasks succeeds with no results, for every completion
order. -/
theorem gather_nil (sched : List Nat) :
    asyncio_gather [] sched = Except.ok [] := by
  unfold asyncio_gather
  rw [List.findSome?_eq_none_iff.mpr (fun x _ => task_exc_nil x)]
  rfl

/-- C8: if the Outline Generator returns an outline with zero entries,
the orchestrator does not fail: it issues zero Subpoint Expander
invocations (its trace is the lone outline call) and returns the empty
string. -/
theorem C8_empty_outline_empty_result (cap : Prompt → Except GenErr String)
    (parse : String → Except GenErr Skeleton) (query : String)
    (hgen : break_into_subpoints cap parse query =
      Except.ok (Skeleton.mk []))
    (sched : List Nat) :
    skeleton_of_thought cap parse sched query =
      (Except.ok "", [Prompt.outline query]) := by
  unfold skeleton_of_thought
  rw [hgen]
  dsimp only
  rw [show List.range (Skeleton.mk ([] : List String)).subpoints.length =
    [] from rfl, List.map_nil, List.map_nil, gather_nil]
  rfl

/-- Witness for C8 at the empty-outline stub. -/
theorem C8_witness :
    skeleton_of_thought okCap emptyParse [] "q" =
      (Except.ok "", [Prompt.outline "q"]) :=
  C8_empty_outline_empty_result okCap emptyParse "q" rfl []

end SkeletonOfThought

namespace DocAgentEval

/-- C9: on every code string the parse rejects with a syntax error, both
evaluators return False instead of letting the exception escape:
`check_syntax` catches the error of `compile` and `is_importable` the
error of `ast.parse`. -/
theorem C9_invalid_code_gives_false (env : PyEnv)
    (pyParse : String → Option (List PyNode)) (code_string : String)
    (hbad : pyParse code_string = none) :
    check_syntax pyParse code_string = false ∧
    is_importable env pyParse code_string = Except.ok false := by
  constructor
  · unfold check_syntax
    rw [hbad]
  · unfold is_importable
    rw [hbad]

/-- Witness for C9 at a code string the stub parse rejects. -/
theorem C9_witness :
    check_syntax toyParse "((((" = false ∧
    is_importable toyEnv toyParse "((((" = Except.ok false :=
  C9_invalid_code_gives_false toyEnv toyParse "((((" rfl

/-- C10: a code string consisting of one plain import statement is
judged importable whenever its first listed module resolves, whatever
further module names the statement lists; and the walk treats any two
lists of further names identically, since only `names[0].name` is ever
read. -/
theorem C10_plain_import_first_only (env : PyEnv)
    (pyParse : String → Option (List PyNode)) (code_string first : String)
    (others : List String)
    (hparse : pyParse code_string = some [PyNode.importPlain first others])
    (hfirst : check_module env first = true) :
    is_importable env pyParse code_string = Except.ok true ∧
    ∀ others2, walk_imports env [PyNode.importPlain first others2] =
      walk_imports env [PyNode.importPlain first others] := by
  constructor
  · unfold is_importable
    rw [hparse]
    simp [walk_imports, hfirst]
  · intro others2
    simp [walk_imports]

/-- Witness for C10: `import math, nonexistent` is judged importable by
the stub even though only `math` resolves. -/
theorem C10_witness :
    is_importable toyEnv toyParse "import math, nonexistent" =
      Except.ok true ∧
    ∀ others2, walk_imports toyEnv [PyNode.importPlain "math" others2] =
      walk_imports toyEnv [PyNode.importPlain "math" ["nonexistent"]] :=
  C10_plain_import_first_only toyEnv toyParse "import math, nonexistent"
    "math" ["nonexistent"] rfl rfl

end DocAgentEval
